import Mathlib

/-!
Verification of `tools/generate-seed-db.py` (halos-homarr-branding).

The script seeds a Homarr SQLite database with a completed onboarding row, a
service-account user, a bootstrap API key (stored as a bcrypt hash), and two
server-setting rows, then writes the plaintext composite key to a key file.

The embedding below is shallow: the SQLite database becomes a record of four
row lists, the filesystem becomes an association of paths to file data plus a
set of directories and a writability predicate, and bcrypt's `hashpw` is an
explicit function parameter (its salt, generated randomly by `gensalt`, is a
parameter as well).
-/

/-- Fixed bootstrap credential identifier (`BOOTSTRAP_API_KEY_ID`, line 31). -/
def BOOTSTRAP_API_KEY_ID : String := "halos-bootstrap"

/-- Fixed bootstrap plaintext token (`BOOTSTRAP_API_KEY_TOKEN`, line 32). -/
def BOOTSTRAP_API_KEY_TOKEN : String := "halos-bootstrap-rotate-me-on-first-boot-abc123"

/-- Fixed service-account user id (`SERVICE_USER_ID`, line 33). -/
def SERVICE_USER_ID : String := "halos-service"

/-- A row of the `onboarding` table. -/
structure OnboardingRow where
  id : String
  step : String
  previousStep : Option String
deriving DecidableEq

/-- A row of the `user` table.  Columns follow the `CREATE TABLE` statement;
nullable columns are `Option`s.  SQLite column defaults are applied by
`insert_service_user` for the columns an `INSERT` omits. -/
structure UserRow where
  id : String
  name : Option String
  email : Option String
  emailVerified : Option Int
  image : Option String
  password : Option String
  salt : Option String
  provider : Option String
  homeBoardId : Option String
  mobileHomeBoardId : Option String
  defaultSearchEngineId : Option String
  openSearchInNewTab : Option Int
  colorScheme : Option String
  firstDayOfWeek : Option Int
  pingIconsEnabled : Option Int
deriving DecidableEq

/-- A row of the `apiKey` table. -/
structure ApiKeyRow where
  id : String
  apiKey : String
  salt : String
  userId : Option String
deriving DecidableEq

/-- A row of the `serverSetting` table. -/
structure ServerSettingRow where
  settingKey : String
  value : String
deriving DecidableEq

/-- The seed database: four tables, each a list of rows (in insertion order). -/
structure DB where
  onboarding : List OnboardingRow
  user : List UserRow
  apiKey : List ApiKeyRow
  serverSetting : List ServerSettingRow
deriving DecidableEq

/-- `create_tables` (lines 36-88): on a fresh database file the four
`CREATE TABLE IF NOT EXISTS` statements produce four empty tables. -/
def create_tables : DB := ⟨[], [], [], []⟩

/-- `insert_onboarding_complete` (lines 91-98). -/
def insert_onboarding_complete (db : DB) : DB :=
  { db with onboarding := db.onboarding ++ [⟨"init", "finish", some "settings"⟩] }

/-- `insert_service_user` (lines 101-108): inserts `(id, name, provider,
colorScheme)`; every omitted column takes its schema default (NULL, or the
declared DEFAULT for `openSearchInNewTab`, `firstDayOfWeek`,
`pingIconsEnabled`). -/
def insert_service_user (db : DB) : DB :=
  { db with user := db.user ++
      [{ id := SERVICE_USER_ID
         name := some "HaLOS Service Account"
         email := none
         emailVerified := none
         image := none
         password := none
         salt := none
         provider := some "credentials"
         homeBoardId := none
         mobileHomeBoardId := none
         defaultSearchEngineId := none
         openSearchInNewTab := some 1
         colorScheme := some "dark"
         firstDayOfWeek := some 1
         pingIconsEnabled := some 0 }] }

/-- The composite credential string returned by `insert_bootstrap_api_key`
(line 130): `id.token` in Homarr's format. -/
def bootstrap_key_string : String :=
  BOOTSTRAP_API_KEY_ID ++ "." ++ BOOTSTRAP_API_KEY_TOKEN

/-- `insert_bootstrap_api_key` (lines 111-130).  `hashpw` stands for
`bcrypt.hashpw` and `salt` for the salt returned by `bcrypt.gensalt`;
the row stores the hash and the salt, and the full composite key string is
returned alongside the updated database. -/
def insert_bootstrap_api_key (hashpw : String → String → String) (salt : String)
    (db : DB) : DB × String :=
  let hashed := hashpw BOOTSTRAP_API_KEY_TOKEN salt
  ({ db with apiKey := db.apiKey ++
      [⟨BOOTSTRAP_API_KEY_ID, hashed, salt, some SERVICE_USER_ID⟩] },
   bootstrap_key_string)

/-- The `analytics` flag dictionary (lines 138-145): all flags disabled. -/
def analyticsFlags : List (String × Bool) :=
  [("enableGeneral", false), ("enableWidgetData", false),
   ("enableIntegrationData", false), ("enableUserData", false)]

/-- The `crawling` flag dictionary (lines 148-155): all opt-out flags set. -/
def crawlingFlags : List (String × Bool) :=
  [("noIndex", true), ("noFollow", true),
   ("noTranslate", true), ("noSiteLinksSearchBox", true)]

/-- Python `json.dumps` restricted to a flat object of booleans, matching the
default separators `, ` and `: `. -/
def jsonDumpsBoolObj (fields : List (String × Bool)) : String :=
  "\x7b" ++
    String.intercalate ", "
      (fields.map fun kv =>
        "\"" ++ kv.1 ++ "\": " ++ (if kv.2 then "true" else "false")) ++
  "\x7d"

/-- Python `json.dumps` of the two-level documents the script builds: a single
top-level `"json"` key holding a flat object of booleans. -/
def jsonDumpsWrapped (fields : List (String × Bool)) : String :=
  "\x7b\"json\": " ++ jsonDumpsBoolObj fields ++ "\x7d"

/-- `insert_server_settings` (lines 133-165): two rows, `analytics` and
`crawlingAndIndexing`, whose values are the JSON serializations of the two
flag dictionaries wrapped under a top-level `"json"` key. -/
def insert_server_settings (db : DB) : DB :=
  { db with serverSetting := db.serverSetting ++
      [⟨"analytics", jsonDumpsWrapped analyticsFlags⟩,
       ⟨"crawlingAndIndexing", jsonDumpsWrapped crawlingFlags⟩] }

/-- The database produced by a successful run: `create_tables` followed by the
four insert calls of `main` (lines 199-203), with `hashpw`/`salt` standing for
bcrypt's hash function and generated salt. -/
def seededDB (hashpw : String → String → String) (salt : String) : DB :=
  insert_server_settings
    (insert_bootstrap_api_key hashpw salt
      (insert_service_user (insert_onboarding_complete create_tables))).1

/-- A filesystem path, as a list of components. -/
abbrev FPath : Type := List String

/-- The parent directory of a path (`Path.parent`): drop the last component. -/
def FPath.parent (p : FPath) : FPath := List.dropLast p

/-- The ancestor chain created by `mkdir(parents=True)` for a directory `d`:
`d` together with every ancestor of it. -/
def FPath.ancestors (d : FPath) : List FPath := List.inits d

/-- Contents of a file: either plain text (the key file) or a SQLite database
(the seed database file). -/
inductive FileData where
  | text (s : String)
  | db (d : DB)
deriving DecidableEq

/-- The filesystem: files (path to contents), existing directories, and an
OS-level writability predicate on paths (fixed permissions). -/
structure FS where
  files : List (FPath × FileData)
  dirs : List FPath
  writable : FPath → Bool

/-- Contents of the file at `p`, if one exists. -/
def FS.getFile (fs : FS) (p : FPath) : Option FileData :=
  (fs.files.find? fun e => e.1 == p).map (·.2)

/-- `Path.exists()` for a file path. -/
def FS.existsPath (fs : FS) (p : FPath) : Bool :=
  (fs.getFile p).isSome

/-- Create or overwrite the file at `p`. -/
def FS.setFile (fs : FS) (p : FPath) (d : FileData) : FS :=
  { fs with files := (p, d) :: fs.files }

/-- `Path.unlink()`: remove the file at `p`. -/
def FS.removeFile (fs : FS) (p : FPath) : FS :=
  { fs with files := fs.files.filter fun e => e.1 != p }

/-- Whether directory `d` exists. -/
def FS.hasDir (fs : FS) (d : FPath) : Prop := d ∈ fs.dirs

instance (fs : FS) (d : FPath) : Decidable (fs.hasDir d) :=
  inferInstanceAs (Decidable (d ∈ fs.dirs))

/-- `p.parent.mkdir(parents=True, exist_ok=True)`: create the parent directory
of `p` and all its ancestors; never fails when they already exist. -/
def FS.mkdirParents (fs : FS) (p : FPath) : FS :=
  { fs with dirs := FPath.ancestors (FPath.parent p) ++ fs.dirs }

/-- Result of one process run: exit code, final filesystem, stderr lines. -/
structure RunResult where
  exitCode : Nat
  fs : FS
  stderr : List String

/-- The import-guard message printed to stderr when `bcrypt` is missing
(line 25). -/
def bcrypt_missing_message : String :=
  "Error: bcrypt module not found. Install with: pip install bcrypt"

/-- Modelled from the spec: the message an uncaught fatal I/O error leaves on
stderr (spec section 7, "filesystem error ... surfaced as a fatal error").
The Python runtime prints an exception traceback here, which is not part of
the repository's code; it is modelled as a fixed line distinct from the
import-guard message. -/
def io_error_message : String :=
  "Traceback (most recent call last): fatal I/O error"

/-- `main` (lines 168-217) together with the module-level `bcrypt` import
guard (lines 22-26).  `bcryptAvailable` models whether `import bcrypt`
succeeds; `hashpw` models `bcrypt.hashpw`; `salt` models the salt returned by
`bcrypt.gensalt(rounds=10)`; `output_db`/`output_key` are the two parsed
paths.  A step that raises (unlink or connect on an unwritable database path,
`write_text` on an unwritable key path) ends the process with exit code 1 and
the filesystem as left by the steps already executed. -/
def main' (bcryptAvailable : Bool) (hashpw : String → String → String)
    (salt : String) (output_db output_key : FPath) (fs : FS) : RunResult :=
  if bcryptAvailable then
    -- create parent directories if needed (lines 187-188)
    let fs1 := (fs.mkdirParents output_db).mkdirParents output_key
    -- remove existing database if present (lines 191-192)
    if fs1.existsPath output_db && !fs1.writable output_db then
      ⟨1, fs1, [io_error_message]⟩
    else
      let fs2 := if fs1.existsPath output_db then fs1.removeFile output_db else fs1
      -- sqlite3.connect and the seeding inserts (lines 197-205)
      if !fs2.writable output_db then
        ⟨1, fs2, [io_error_message]⟩
      else
        let seeded := insert_bootstrap_api_key hashpw salt
          (insert_service_user (insert_onboarding_complete create_tables))
        let api_key := seeded.2
        let db := insert_server_settings seeded.1
        let fs3 := fs2.setFile output_db (.db db)
        -- write the bootstrap API key to a file (line 209)
        if !fs3.writable output_key then
          ⟨1, fs3, [io_error_message]⟩
        else
          ⟨0, fs3.setFile output_key (.text (api_key ++ "\n")), []⟩
  else
    ⟨1, fs, [bcrypt_missing_message]⟩

@[simp]
theorem FS.writable_mkdirParents (fs : FS) (p q : FPath) :
    (fs.mkdirParents p).writable q = fs.writable q := rfl

@[simp]
theorem FS.getFile_mkdirParents (fs : FS) (p q : FPath) :
    (fs.mkdirParents p).getFile q = fs.getFile q := rfl

@[simp]
theorem FS.existsPath_mkdirParents (fs : FS) (p q : FPath) :
    (fs.mkdirParents p).existsPath q = fs.existsPath q := rfl

@[simp]
theorem FS.writable_removeFile (fs : FS) (p q : FPath) :
    (fs.removeFile p).writable q = fs.writable q := rfl

@[simp]
theorem FS.writable_setFile (fs : FS) (p : FPath) (d : FileData) (q : FPath) :
    (fs.setFile p d).writable q = fs.writable q := rfl

@[simp]
theorem FS.dirs_setFile (fs : FS) (p : FPath) (d : FileData) :
    (fs.setFile p d).dirs = fs.dirs := rfl

@[simp]
theorem FS.dirs_removeFile (fs : FS) (p : FPath) :
    (fs.removeFile p).dirs = fs.dirs := rfl

@[simp]
theorem FS.dirs_mkdirParents (fs : FS) (p : FPath) :
    (fs.mkdirParents p).dirs = FPath.ancestors (FPath.parent p) ++ fs.dirs := rfl

@[simp]
theorem FS.getFile_setFile_self (fs : FS) (p : FPath) (d : FileData) :
    (fs.setFile p d).getFile p = some d := by
  simp [FS.getFile, FS.setFile]

theorem FS.getFile_setFile_ne (fs : FS) (p q : FPath) (d : FileData)
    (h : q ≠ p) : (fs.setFile p d).getFile q = fs.getFile q := by
  simp only [FS.getFile, FS.setFile, List.find?]
  rw [show ((p, d).1 == q) = false from beq_eq_false_iff_ne.mpr fun hpq => h hpq.symm]

/-- A directory is among its own `mkdir(parents=True)` ancestor chain. -/
theorem FPath.self_mem_ancestors (d : FPath) : d ∈ FPath.ancestors d :=
  (List.mem_inits d d).mpr (List.prefix_refl d)

/-- On a run with both output paths writable, `main'` takes the success path:
exit code 0, empty stderr, the seeded database written at `output_db` and the
key file written at `output_key`. -/
theorem main'_success (hashpw : String → String → String) (salt : String)
    (output_db output_key : FPath) (fs : FS)
    (hdb : fs.writable output_db = true) (hkey : fs.writable output_key = true) :
    main' true hashpw salt output_db output_key fs =
      ⟨0,
       FS.setFile
         (FS.setFile
           (if ((fs.mkdirParents output_db).mkdirParents output_key).existsPath output_db
            then ((fs.mkdirParents output_db).mkdirParents output_key).removeFile output_db
            else (fs.mkdirParents output_db).mkdirParents output_key)
           output_db (.db (seededDB hashpw salt)))
         output_key (.text (bootstrap_key_string ++ "\n")),
       []⟩ := by
  unfold main'
  cases he : ((fs.mkdirParents output_db).mkdirParents output_key).existsPath output_db <;>
    simp [he, hdb, hkey, seededDB, insert_bootstrap_api_key, bootstrap_key_string]

theorem main'_success_exitCode (hashpw : String → String → String) (salt : String)
    (output_db output_key : FPath) (fs : FS)
    (hdb : fs.writable output_db = true) (hkey : fs.writable output_key = true) :
    (main' true hashpw salt output_db output_key fs).exitCode = 0 := by
  rw [main'_success hashpw salt output_db output_key fs hdb hkey]

theorem main'_success_getFile_key (hashpw : String → String → String) (salt : String)
    (output_db output_key : FPath) (fs : FS)
    (hdb : fs.writable output_db = true) (hkey : fs.writable output_key = true) :
    (main' true hashpw salt output_db output_key fs).fs.getFile output_key =
      some (.text (bootstrap_key_string ++ "\n")) := by
  rw [main'_success hashpw salt output_db output_key fs hdb hkey]
  exact FS.getFile_setFile_self _ _ _

theorem main'_success_getFile_db (hashpw : String → String → String) (salt : String)
    (output_db output_key : FPath) (fs : FS)
    (hdb : fs.writable output_db = true) (hkey : fs.writable output_key = true)
    (hne : output_db ≠ output_key) :
    (main' true hashpw salt output_db output_key fs).fs.getFile output_db =
      some (.db (seededDB hashpw salt)) := by
  rw [main'_success hashpw salt output_db output_key fs hdb hkey]
  rw [show (RunResult.mk 0 _ []).fs = _ from rfl]
  rw [FS.getFile_setFile_ne _ _ _ _ hne]
  exact FS.getFile_setFile_self _ _ _

theorem main'_success_hasDir (hashpw : String → String → String) (salt : String)
    (output_db output_key : FPath) (fs : FS)
    (hdb : fs.writable output_db = true) (hkey : fs.writable output_key = true) :
    (main' true hashpw salt output_db output_key fs).fs.hasDir (FPath.parent output_db) ∧
    (main' true hashpw salt output_db output_key fs).fs.hasDir (FPath.parent output_key) := by
  rw [main'_success hashpw salt output_db output_key fs hdb hkey]
  constructor <;>
  · show _ ∈ FS.dirs _
    simp only [FS.dirs_setFile]
    rw [apply_ite FS.dirs]
    simp [FPath.self_mem_ancestors]

/-- Split a string at the first occurrence of `sep` (list version): the part
before it and the part after it. -/
def splitFirstList (sep : Char) : List Char → List Char × List Char
  | [] => ([], [])
  | c :: cs =>
    if c == sep then ([], cs)
    else
      let r := splitFirstList sep cs
      (c :: r.1, r.2)

/-- Split a string at the first occurrence of `sep`, as Homarr does to
recover `id` and `token` from the composite `id.token` key string. -/
def splitFirst (sep : Char) (s : String) : String × String :=
  let r := splitFirstList sep s.toList
  (String.mk r.1, String.mk r.2)

/-- Modelled from the spec: credential verification by the host application,
which is not part of this repository — hash the candidate token with the
stored salt and compare the result against the stored hash ("The stored
credential hash, when verified against the fixed plaintext token using the
stored salt, succeeds; verification against any other string fails"). -/
def verifyApiKey (hashpw : String → String → String)
    (candidate salt stored : String) : Bool :=
  hashpw candidate salt == stored

/-- Fixture: an empty, everywhere-writable filesystem. -/
def fs0 : FS := ⟨[], [], fun _ => true⟩

/-- Fixture: an empty, nowhere-writable filesystem. -/
def fsRO : FS := ⟨[], [], fun _ => false⟩

/-- Fixture: a concrete stand-in for `bcrypt.hashpw` (injective in the
candidate for a fixed salt, and never the identity on the token). -/
def hpw0 : String → String → String := fun s salt => salt ++ "$2b$10$" ++ s

/-- Fixture: the default database output path. -/
def dbPath0 : FPath := ["db-seed.sqlite3"]

/-- Fixture: the default key-file output path. -/
def keyPath0 : FPath := ["bootstrap-api-key"]

/-- C9: neither the fixed credential identifier nor the fixed plaintext token
contains the `.` separator, so splitting the composite key string at its
first `.` recovers exactly the identifier and the token. -/
theorem C9_separator_roundtrip :
    BOOTSTRAP_API_KEY_ID.toList.contains '.' = false ∧
    BOOTSTRAP_API_KEY_TOKEN.toList.contains '.' = false ∧
    splitFirst '.' bootstrap_key_string =
      (BOOTSTRAP_API_KEY_ID, BOOTSTRAP_API_KEY_TOKEN) := by
  refine ⟨by decide, by decide, by decide⟩

/-- C1 (counterexample): on a concrete successful invocation the generated
database does NOT contain exactly one row in each of the four tables — the
`serverSetting` table contains two rows, not one. -/
theorem C1_counterexample :
    (main' true hpw0 "SALT" dbPath0 keyPath0 fs0).exitCode = 0 ∧
    (main' true hpw0 "SALT" dbPath0 keyPath0 fs0).fs.getFile dbPath0 =
      some (.db (seededDB hpw0 "SALT")) ∧
    (seededDB hpw0 "SALT").serverSetting.length = 2 ∧
    (seededDB hpw0 "SALT").serverSetting.length ≠ 1 := by
  refine ⟨by decide, by decide, by decide, by decide⟩

/-- C1 (amended): for every invocation with valid writable output paths, the
generated database contains exactly one row in each of the onboarding, user
and apiKey tables and exactly two rows in the serverSetting table, with
values matching the entity table of section 3. -/
theorem C1_seed_rows (hashpw : String → String → String) (salt : String)
    (output_db output_key : FPath) (fs : FS)
    (hdb : fs.writable output_db = true) (hkey : fs.writable output_key = true)
    (hne : output_db ≠ output_key) :
    (main' true hashpw salt output_db output_key fs).exitCode = 0 ∧
    (main' true hashpw salt output_db output_key fs).fs.getFile output_db =
      some (.db (seededDB hashpw salt)) ∧
    (seededDB hashpw salt).onboarding = [⟨"init", "finish", some "settings"⟩] ∧
    (seededDB hashpw salt).user =
      [⟨SERVICE_USER_ID, some "HaLOS Service Account", none, none, none, none,
        none, some "credentials", none, none, none, some 1, some "dark",
        some 1, some 0⟩] ∧
    (seededDB hashpw salt).apiKey =
      [⟨BOOTSTRAP_API_KEY_ID, hashpw BOOTSTRAP_API_KEY_TOKEN salt, salt,
        some SERVICE_USER_ID⟩] ∧
    (seededDB hashpw salt).serverSetting =
      [⟨"analytics", jsonDumpsWrapped analyticsFlags⟩,
       ⟨"crawlingAndIndexing", jsonDumpsWrapped crawlingFlags⟩] :=
  ⟨main'_success_exitCode hashpw salt output_db output_key fs hdb hkey,
   main'_success_getFile_db hashpw salt output_db output_key fs hdb hkey hne,
   rfl, rfl, rfl, rfl⟩

/-- Witness for C1 (amended): the hypotheses hold and the conclusion follows
on a concrete run. -/
theorem C1_seed_rows_witness :
    fs0.writable dbPath0 = true ∧ fs0.writable keyPath0 = true ∧
    dbPath0 ≠ keyPath0 ∧
    ((main' true hpw0 "SALT" dbPath0 keyPath0 fs0).exitCode = 0 ∧
     (main' true hpw0 "SALT" dbPath0 keyPath0 fs0).fs.getFile dbPath0 =
       some (.db (seededDB hpw0 "SALT")) ∧
     (seededDB hpw0 "SALT").onboarding = [⟨"init", "finish", some "settings"⟩] ∧
     (seededDB hpw0 "SALT").user =
       [⟨SERVICE_USER_ID, some "HaLOS Service Account", none, none, none, none,
         none, some "credentials", none, none, none, some 1, some "dark",
         some 1, some 0⟩] ∧
     (seededDB hpw0 "SALT").apiKey =
       [⟨BOOTSTRAP_API_KEY_ID, hpw0 BOOTSTRAP_API_KEY_TOKEN "SALT", "SALT",
         some SERVICE_USER_ID⟩] ∧
     (seededDB hpw0 "SALT").serverSetting =
       [⟨"analytics", jsonDumpsWrapped analyticsFlags⟩,
        ⟨"crawlingAndIndexing", jsonDumpsWrapped crawlingFlags⟩]) :=
  ⟨rfl, rfl, by decide,
   C1_seed_rows hpw0 "SALT" dbPath0 keyPath0 fs0 rfl rfl (by decide)⟩

/-- C2: on every successful run the sole apiKey row stores the salted one-way
hash of the fixed plaintext token computed with the stored salt, never the
plaintext; verifying the stored hash against the fixed token with the stored
salt succeeds, and against any other string fails (given that the hash with
that salt does not collide the other string with the token, bcrypt's
one-wayness assumption). -/
theorem C2_stored_hash (hashpw : String → String → String) (salt : String)
    (output_db output_key : FPath) (fs : FS)
    (hdb : fs.writable output_db = true) (hkey : fs.writable output_key = true)
    (hne : output_db ≠ output_key) :
    (main' true hashpw salt output_db output_key fs).fs.getFile output_db =
      some (.db (seededDB hashpw salt)) ∧
    ∃ row, (seededDB hashpw salt).apiKey = [row] ∧
      row.salt = salt ∧
      row.apiKey = hashpw BOOTSTRAP_API_KEY_TOKEN row.salt ∧
      verifyApiKey hashpw BOOTSTRAP_API_KEY_TOKEN row.salt row.apiKey = true ∧
      (∀ s : String,
        (hashpw s row.salt = hashpw BOOTSTRAP_API_KEY_TOKEN row.salt →
          s = BOOTSTRAP_API_KEY_TOKEN) →
        s ≠ BOOTSTRAP_API_KEY_TOKEN →
        verifyApiKey hashpw s row.salt row.apiKey = false) ∧
      (hashpw BOOTSTRAP_API_KEY_TOKEN row.salt ≠ BOOTSTRAP_API_KEY_TOKEN →
        row.apiKey ≠ BOOTSTRAP_API_KEY_TOKEN) := by
  refine ⟨main'_success_getFile_db hashpw salt output_db output_key fs hdb hkey hne,
    ⟨BOOTSTRAP_API_KEY_ID, hashpw BOOTSTRAP_API_KEY_TOKEN salt, salt,
      some SERVICE_USER_ID⟩, rfl, rfl, rfl, ?_, ?_, fun h => h⟩
  · simp [verifyApiKey]
  · intro s hinj hne'
    unfold verifyApiKey
    exact beq_eq_false_iff_ne.mpr fun h => hne' (hinj h)

/-- Witness for C2 on a concrete run with a concrete (injective-in-candidate)
hash function. -/
theorem C2_stored_hash_witness :
    fs0.writable dbPath0 = true ∧ fs0.writable keyPath0 = true ∧
    dbPath0 ≠ keyPath0 ∧
    ((main' true hpw0 "SALT" dbPath0 keyPath0 fs0).fs.getFile dbPath0 =
       some (.db (seededDB hpw0 "SALT")) ∧
     ∃ row, (seededDB hpw0 "SALT").apiKey = [row] ∧
       row.salt = "SALT" ∧
       row.apiKey = hpw0 BOOTSTRAP_API_KEY_TOKEN row.salt ∧
       verifyApiKey hpw0 BOOTSTRAP_API_KEY_TOKEN row.salt row.apiKey = true ∧
       (∀ s : String,
         (hpw0 s row.salt = hpw0 BOOTSTRAP_API_KEY_TOKEN row.salt →
           s = BOOTSTRAP_API_KEY_TOKEN) →
         s ≠ BOOTSTRAP_API_KEY_TOKEN →
         verifyApiKey hpw0 s row.salt row.apiKey = false) ∧
       (hpw0 BOOTSTRAP_API_KEY_TOKEN row.salt ≠ BOOTSTRAP_API_KEY_TOKEN →
         row.apiKey ≠ BOOTSTRAP_API_KEY_TOKEN)) :=
  ⟨rfl, rfl, by decide,
   C2_stored_hash hpw0 "SALT" dbPath0 keyPath0 fs0 rfl rfl (by decide)⟩

/-- C3: on every successful run the key file contains exactly the composite
credential string `id ++ "." ++ token` followed by a trailing newline, and
the identifier prefix of that string (the part before the first `.`) equals
the `id` column of the sole apiKey row. -/
theorem C3_key_file (hashpw : String → String → String) (salt : String)
    (output_db output_key : FPath) (fs : FS)
    (hdb : fs.writable output_db = true) (hkey : fs.writable output_key = true) :
    (main' true hashpw salt output_db output_key fs).exitCode = 0 ∧
    (main' true hashpw salt output_db output_key fs).fs.getFile output_key =
      some (.text (bootstrap_key_string ++ "\n")) ∧
    bootstrap_key_string =
      BOOTSTRAP_API_KEY_ID ++ "." ++ BOOTSTRAP_API_KEY_TOKEN ∧
    ∃ row, (seededDB hashpw salt).apiKey = [row] ∧
      (splitFirst '.' bootstrap_key_string).1 = row.id :=
  ⟨main'_success_exitCode hashpw salt output_db output_key fs hdb hkey,
   main'_success_getFile_key hashpw salt output_db output_key fs hdb hkey,
   rfl,
   ⟨BOOTSTRAP_API_KEY_ID, hashpw BOOTSTRAP_API_KEY_TOKEN salt, salt,
     some SERVICE_USER_ID⟩, rfl,
   show (splitFirst '.' bootstrap_key_string).1 = BOOTSTRAP_API_KEY_ID by decide⟩

/-- Witness for C3 on a concrete run. -/
theorem C3_key_file_witness :
    fs0.writable dbPath0 = true ∧ fs0.writable keyPath0 = true ∧
    ((main' true hpw0 "SALT" dbPath0 keyPath0 fs0).exitCode = 0 ∧
     (main' true hpw0 "SALT" dbPath0 keyPath0 fs0).fs.getFile keyPath0 =
       some (.text (bootstrap_key_string ++ "\n")) ∧
     bootstrap_key_string =
       BOOTSTRAP_API_KEY_ID ++ "." ++ BOOTSTRAP_API_KEY_TOKEN ∧
     ∃ row, (seededDB hpw0 "SALT").apiKey = [row] ∧
       (splitFirst '.' bootstrap_key_string).1 = row.id) :=
  ⟨rfl, rfl, C3_key_file hpw0 "SALT" dbPath0 keyPath0 fs0 rfl rfl⟩

/-- C4: on every invocation (with or without the hashing library) whose
database output path is not writable, the process exits non-zero and no file
is written at all — in particular the key file with the plaintext credential
is never written. -/
theorem C4_unwritable_db (bc : Bool) (hashpw : String → String → String)
    (salt : String) (output_db output_key : FPath) (fs : FS)
    (h : fs.writable output_db = false) :
    (main' bc hashpw salt output_db output_key fs).exitCode ≠ 0 ∧
    (main' bc hashpw salt output_db output_key fs).fs.getFile output_key =
      fs.getFile output_key ∧
    ∀ p, (main' bc hashpw salt output_db output_key fs).fs.getFile p =
      fs.getFile p := by
  cases bc with
  | false => exact ⟨by simp [main'], rfl, fun p => rfl⟩
  | true =>
    have hmain : main' true hashpw salt output_db output_key fs =
        ⟨1, (fs.mkdirParents output_db).mkdirParents output_key,
         [io_error_message]⟩ := by
      unfold main'
      cases he : ((fs.mkdirParents output_db).mkdirParents output_key).existsPath
          output_db <;>
        simp [he, h]
    rw [hmain]
    exact ⟨by simp, rfl, fun p => rfl⟩

/-- Witness for C4 on a concrete unwritable filesystem. -/
theorem C4_unwritable_db_witness :
    fsRO.writable dbPath0 = false ∧
    ((main' true hpw0 "SALT" dbPath0 keyPath0 fsRO).exitCode ≠ 0 ∧
     (main' true hpw0 "SALT" dbPath0 keyPath0 fsRO).fs.getFile keyPath0 =
       fsRO.getFile keyPath0 ∧
     ∀ p, (main' true hpw0 "SALT" dbPath0 keyPath0 fsRO).fs.getFile p =
       fsRO.getFile p) :=
  ⟨rfl, C4_unwritable_db true hpw0 "SALT" dbPath0 keyPath0 fsRO rfl⟩

/-- C5: re-running against the same writable output paths yields exit code 0
and a database file whose content is the fresh `seededDB` — in particular it
equals, for the same salt and hash function, the content obtained after first
removing whatever file sat at the database path (delete-then-regenerate). -/
theorem C5_regenerate (hashpw : String → String → String) (salt : String)
    (output_db output_key : FPath) (fs : FS)
    (hdb : fs.writable output_db = true) (hkey : fs.writable output_key = true)
    (hne : output_db ≠ output_key) :
    (main' true hashpw salt output_db output_key fs).exitCode = 0 ∧
    (main' true hashpw salt output_db output_key fs).fs.getFile output_db =
      some (.db (seededDB hashpw salt)) ∧
    (main' true hashpw salt output_db output_key fs).fs.getFile output_db =
      (main' true hashpw salt output_db output_key
        (fs.removeFile output_db)).fs.getFile output_db := by
  refine ⟨main'_success_exitCode hashpw salt output_db output_key fs hdb hkey,
    main'_success_getFile_db hashpw salt output_db output_key fs hdb hkey hne, ?_⟩
  rw [main'_success_getFile_db hashpw salt output_db output_key fs hdb hkey hne,
    main'_success_getFile_db hashpw salt output_db output_key
      (fs.removeFile output_db) hdb hkey hne]

/-- Witness for C5 on a concrete filesystem that already holds a stale file at
the database path. -/
theorem C5_regenerate_witness :
    (FS.mk [(dbPath0, .text "stale")] [] (fun _ => true)).writable dbPath0 = true ∧
    (FS.mk [(dbPath0, .text "stale")] [] (fun _ => true)).writable keyPath0 = true ∧
    dbPath0 ≠ keyPath0 ∧
    ((main' true hpw0 "SALT" dbPath0 keyPath0
        (FS.mk [(dbPath0, .text "stale")] [] (fun _ => true))).exitCode = 0 ∧
     (main' true hpw0 "SALT" dbPath0 keyPath0
        (FS.mk [(dbPath0, .text "stale")] [] (fun _ => true))).fs.getFile dbPath0 =
       some (.db (seededDB hpw0 "SALT")) ∧
     (main' true hpw0 "SALT" dbPath0 keyPath0
        (FS.mk [(dbPath0, .text "stale")] [] (fun _ => true))).fs.getFile dbPath0 =
       (main' true hpw0 "SALT" dbPath0 keyPath0
         ((FS.mk [(dbPath0, .text "stale")] [] (fun _ => true)).removeFile
           dbPath0)).fs.getFile dbPath0) :=
  ⟨rfl, rfl, by decide,
   C5_regenerate hpw0 "SALT" dbPath0 keyPath0
     (FS.mk [(dbPath0, .text "stale")] [] (fun _ => true)) rfl rfl (by decide)⟩

/-- C6: on every successful run the serverSetting table has a row with key
`analytics` whose serialized value has every analytics flag disabled, and a
row with key `crawlingAndIndexing` whose serialized value has every
crawling/indexing opt-out flag enabled. -/
theorem C6_server_settings (hashpw : String → String → String) (salt : String)
    (output_db output_key : FPath) (fs : FS)
    (hdb : fs.writable output_db = true) (hkey : fs.writable output_key = true)
    (hne : output_db ≠ output_key) :
    (main' true hashpw salt output_db output_key fs).fs.getFile output_db =
      some (.db (seededDB hashpw salt)) ∧
    (seededDB hashpw salt).serverSetting =
      [⟨"analytics", jsonDumpsWrapped analyticsFlags⟩,
       ⟨"crawlingAndIndexing", jsonDumpsWrapped crawlingFlags⟩] ∧
    analyticsFlags.all (fun kv => !kv.2) = true ∧
    crawlingFlags.all (fun kv => kv.2) = true :=
  ⟨main'_success_getFile_db hashpw salt output_db output_key fs hdb hkey hne,
   rfl, by decide, by decide⟩

/-- Witness for C6 on a concrete run. -/
theorem C6_server_settings_witness :
    fs0.writable dbPath0 = true ∧ fs0.writable keyPath0 = true ∧
    dbPath0 ≠ keyPath0 ∧
    ((main' true hpw0 "SALT" dbPath0 keyPath0 fs0).fs.getFile dbPath0 =
       some (.db (seededDB hpw0 "SALT")) ∧
     (seededDB hpw0 "SALT").serverSetting =
       [⟨"analytics", jsonDumpsWrapped analyticsFlags⟩,
        ⟨"crawlingAndIndexing", jsonDumpsWrapped crawlingFlags⟩] ∧
     analyticsFlags.all (fun kv => !kv.2) = true ∧
     crawlingFlags.all (fun kv => kv.2) = true) :=
  ⟨rfl, rfl, by decide,
   C6_server_settings hpw0 "SALT" dbPath0 keyPath0 fs0 rfl rfl (by decide)⟩

/-- C7: if the hashing library is unavailable at startup the process exits
non-zero before any file or directory is touched, reporting the failure once
on stderr with an installation hint, and that report is distinct from other
failures: it appears only on the missing-dependency path. -/
theorem C7_missing_bcrypt (hashpw : String → String → String) (salt : String)
    (output_db output_key : FPath) (fs : FS) :
    (main' false hashpw salt output_db output_key fs).exitCode ≠ 0 ∧
    (main' false hashpw salt output_db output_key fs).fs = fs ∧
    (main' false hashpw salt output_db output_key fs).stderr =
      [bcrypt_missing_message] ∧
    "pip install bcrypt".toList <:+: bcrypt_missing_message.toList ∧
    (∀ (bc : Bool) (hp : String → String → String) (sl : String)
       (dp kp : FPath) (f : FS),
       bcrypt_missing_message ∈ (main' bc hp sl dp kp f).stderr → bc = false) := by
  refine ⟨by simp [main'], rfl, rfl, by decide, ?_⟩
  intro bc hp sl dp kp f hmem
  cases bc with
  | false => rfl
  | true =>
    exfalso
    unfold main' at hmem
    simp only [if_true] at hmem
    repeat' split at hmem
    all_goals simp [bcrypt_missing_message, io_error_message] at hmem

/-- C8: on every invocation where the database output path's parent directory
or the key-file path's parent directory does not exist, the generator creates
both parent directories rather than failing (the run still exits 0). -/
theorem C8_creates_parents (hashpw : String → String → String) (salt : String)
    (output_db output_key : FPath) (fs : FS)
    (hdb : fs.writable output_db = true) (hkey : fs.writable output_key = true)
    (_hmiss : ¬ fs.hasDir (FPath.parent output_db) ∨
      ¬ fs.hasDir (FPath.parent output_key)) :
    (main' true hashpw salt output_db output_key fs).exitCode = 0 ∧
    (main' true hashpw salt output_db output_key fs).fs.hasDir
      (FPath.parent output_db) ∧
    (main' true hashpw salt output_db output_key fs).fs.hasDir
      (FPath.parent output_key) :=
  ⟨main'_success_exitCode hashpw salt output_db output_key fs hdb hkey,
   (main'_success_hasDir hashpw salt output_db output_key fs hdb hkey).1,
   (main'_success_hasDir hashpw salt output_db output_key fs hdb hkey).2⟩

/-- Witness for C8: a run on an empty filesystem where neither parent
directory exists yet. -/
theorem C8_creates_parents_witness :
    fs0.writable dbPath0 = true ∧ fs0.writable keyPath0 = true ∧
    (¬ fs0.hasDir (FPath.parent dbPath0) ∨
      ¬ fs0.hasDir (FPath.parent keyPath0)) ∧
    ((main' true hpw0 "SALT" dbPath0 keyPath0 fs0).exitCode = 0 ∧
     (main' true hpw0 "SALT" dbPath0 keyPath0 fs0).fs.hasDir
       (FPath.parent dbPath0) ∧
     (main' true hpw0 "SALT" dbPath0 keyPath0 fs0).fs.hasDir
       (FPath.parent keyPath0)) :=
  ⟨rfl, rfl, Or.inl (by decide),
   C8_creates_parents hpw0 "SALT" dbPath0 keyPath0 fs0 rfl rfl
     (Or.inl (by decide))⟩

/-- C10: on every successful run each serverSetting value is a JSON document
whose flags sit under a single top-level "json" key — the two stored values
are exactly the wrapped serializations of the two flag lists, spelled out
below as concrete strings. -/
theorem C10_wrapped_json (hashpw : String → String → String) (salt : String)
    (output_db output_key : FPath) (fs : FS)
    (hdb : fs.writable output_db = true) (hkey : fs.writable output_key = true)
    (hne : output_db ≠ output_key) :
    (main' true hashpw salt output_db output_key fs).fs.getFile output_db =
      some (.db (seededDB hashpw salt)) ∧
    (∀ r ∈ (seededDB hashpw salt).serverSetting,
      ∃ flags, r.value = jsonDumpsWrapped flags) ∧
    (seededDB hashpw salt).serverSetting.map (fun r => r.value) =
      [jsonDumpsWrapped analyticsFlags, jsonDumpsWrapped crawlingFlags] ∧
    jsonDumpsWrapped analyticsFlags =
      "\x7b\"json\": \x7b\"enableGeneral\": false, \"enableWidgetData\": false, \"enableIntegrationData\": false, \"enableUserData\": false\x7d\x7d" ∧
    jsonDumpsWrapped crawlingFlags =
      "\x7b\"json\": \x7b\"noIndex\": true, \"noFollow\": true, \"noTranslate\": true, \"noSiteLinksSearchBox\": true\x7d\x7d" := by
  refine ⟨main'_success_getFile_db hashpw salt output_db output_key fs hdb hkey hne,
    ?_, rfl, by decide, by decide⟩
  intro r hr
  have hss : (seededDB hashpw salt).serverSetting =
      [⟨"analytics", jsonDumpsWrapped analyticsFlags⟩,
       ⟨"crawlingAndIndexing", jsonDumpsWrapped crawlingFlags⟩] := rfl
  rw [hss] at hr
  simp only [List.mem_cons, List.not_mem_nil, or_false] at hr
  rcases hr with rfl | rfl
  · exact ⟨analyticsFlags, rfl⟩
  · exact ⟨crawlingFlags, rfl⟩

/-- Witness for C10 on a concrete run. -/
theorem C10_wrapped_json_witness :
    fs0.writable dbPath0 = true ∧ fs0.writable keyPath0 = true ∧
    dbPath0 ≠ keyPath0 ∧
    ((main' true hpw0 "SALT" dbPath0 keyPath0 fs0).fs.getFile dbPath0 =
       some (.db (seededDB hpw0 "SALT")) ∧
     (∀ r ∈ (seededDB hpw0 "SALT").serverSetting,
       ∃ flags, r.value = jsonDumpsWrapped flags) ∧
     (seededDB hpw0 "SALT").serverSetting.map (fun r => r.value) =
       [jsonDumpsWrapped analyticsFlags, jsonDumpsWrapped crawlingFlags] ∧
     jsonDumpsWrapped analyticsFlags =
       "\x7b\"json\": \x7b\"enableGeneral\": false, \"enableWidgetData\": false, \"enableIntegrationData\": false, \"enableUserData\": false\x7d\x7d" ∧
     jsonDumpsWrapped crawlingFlags =
       "\x7b\"json\": \x7b\"noIndex\": true, \"noFollow\": true, \"noTranslate\": true, \"noSiteLinksSearchBox\": true\x7d\x7d") :=
  ⟨rfl, rfl, by decide,
   C10_wrapped_json hpw0 "SALT" dbPath0 keyPath0 fs0 rfl rfl (by decide)⟩
